import Mathlib

/-!
Verification of the pomodoro timer control core (shallow embedding).

The embedding follows the main sketch (the variant with ThingSpeak telemetry):
timestamps are natural-number milliseconds (clock wraparound is an accepted
limitation of the system and excluded from the model), pin levels are booleans
with HIGH = true and LOW = false, and one control-loop invocation is modelled
as a function of the consumed press event, the tick timestamp, and the global
state.  Telemetry staging plus flush is recorded as an observable effect; the
millisecond-to-second conversion performed inside the sink adapter is kept in
milliseconds here since no property depends on the unit scaling.
-/

namespace Pomodoro

/-- Timing configuration of the main sketch. -/
def WORK_TIME : Nat := 10 * 1000

/-- Break phase duration (ms). -/
def BREAK_TIME : Nat := 10 * 1000

/-- Blink period of the waiting animation (ms). -/
def WAIT_BLINK_MS : Nat := 400

/-- Debounce window of the button handler (ms). -/
def DEBOUNCE_MS : Nat := 30

/-- Cooldown window of the button handler (ms). -/
def COOLDOWN_MS : Nat := 250

/-- RGB LED wiring: common anode, so a logically lit channel drives LOW. -/
def RGB_COMMON_ANODE : Bool := true

/-- The three FSM states. -/
inductive State
  | IDLE
  | WORK
  | BREAK
deriving DecidableEq, Repr

/-- Global mutable state of the sketch: FSM bookkeeping, session metrics,
blink animation bookkeeping, and the output pin levels (HIGH = true). -/
structure Sys where
  currentState : State
  phaseStartTime : Nat
  phaseDuration : Nat
  pomodoroCount : Int
  breakAwaitingButton : Bool
  totalSessionTimeMs : Nat
  totalFocusTimeMs : Nat
  totalRestTimeMs : Nat
  totalPomodoroCount : Int
  waitBlinkLast : Nat
  waitBlinkOn : Bool
  rgbR : Bool
  rgbG : Bool
  rgbB : Bool
  ledP1 : Bool
  ledP2 : Bool
  ledP3 : Bool
  ledP4 : Bool
deriving DecidableEq, Repr

/-- One staged-and-flushed telemetry snapshot: field 1 is the pomodoro tally,
field 2 the session time, field 3 the focus time, field 4 the rest time. -/
structure Snapshot where
  field1 : Int
  field2 : Nat
  field3 : Nat
  field4 : Nat
deriving DecidableEq, Repr

/-- Observable effects of one loop invocation: buzzer pulses and flushes. -/
structure Effects where
  beeps : Nat
  flushes : List Snapshot
deriving DecidableEq, Repr

/-- A tick with no buzzer pulse and no telemetry transmission. -/
def noEffects : Effects := ⟨0, []⟩

/-- setRGB: writes the three RGB pins, inverting for a common-anode LED. -/
def setRGB (r g b : Bool) (s : Sys) : Sys :=
  if RGB_COMMON_ANODE = true then
    { s with rgbR := if r then false else true,
             rgbG := if g then false else true,
             rgbB := if b then false else true }
  else
    { s with rgbR := if r then true else false,
             rgbG := if g then true else false,
             rgbB := if b then true else false }

/-- updateProgressLEDs: drives the four progress LEDs from pomodoroCount. -/
def updateProgressLEDs (s : Sys) : Sys :=
  { s with ledP1 := decide (s.pomodoroCount ≥ 1),
           ledP2 := decide (s.pomodoroCount ≥ 2),
           ledP3 := decide (s.pomodoroCount ≥ 3),
           ledP4 := decide (s.pomodoroCount ≥ 4) }

/-- enterIdle: LED off, continuation flag cleared. -/
def enterIdle (s : Sys) : Sys :=
  let s1 := { s with currentState := State.IDLE }
  let s2 := setRGB false false false s1
  { s2 with breakAwaitingButton := false }

/-- enterWork: start the work timer, advance and cap the visual counter,
refresh the progress LEDs, show the focus colour, clear the flag. -/
def enterWork (now : Nat) (s : Sys) : Sys :=
  let s1 := { s with currentState := State.WORK,
                     phaseStartTime := now,
                     phaseDuration := WORK_TIME }
  let s2 := { s1 with pomodoroCount := s1.pomodoroCount + 1 }
  let s3 := if s2.pomodoroCount > 4 then { s2 with pomodoroCount := 4 } else s2
  let s4 := setRGB true false false (updateProgressLEDs s3)
  { s4 with breakAwaitingButton := false }

/-- enterBreak: start the break timer, show the rest colour, clear the flag,
and reset the waiting-animation bookkeeping. -/
def enterBreak (now : Nat) (s : Sys) : Sys :=
  let s1 := { s with currentState := State.BREAK,
                     phaseStartTime := now,
                     phaseDuration := BREAK_TIME }
  let s2 := setRGB false false true s1
  let s3 := { s2 with breakAwaitingButton := false }
  { s3 with waitBlinkLast := now, waitBlinkOn := true }

/-- The snapshot staged by the four setField helpers and sent by
sendAllMetrics, read off the current metric variables. -/
def snapshotOf (s : Sys) : Snapshot :=
  { field1 := s.totalPomodoroCount,
    field2 := s.totalSessionTimeMs,
    field3 := s.totalFocusTimeMs,
    field4 := s.totalRestTimeMs }

/-- The button-event branch of loop: IDLE starts a fresh work session,
BREAK with the continuation flag resumes work and books the real rest time,
and every other press falls back to IDLE. -/
def handlePress (now : Nat) (s : Sys) : Sys :=
  if s.currentState = State.IDLE then
    enterWork now (updateProgressLEDs { s with pomodoroCount := 0 })
  else if s.currentState = State.BREAK ∧ s.breakAwaitingButton = true then
    let breakDurationMs := now - s.phaseStartTime
    let s1 := { s with totalRestTimeMs := s.totalRestTimeMs + breakDurationMs }
    let s2 := if s1.pomodoroCount ≥ 4 then
                updateProgressLEDs { s1 with pomodoroCount := 0 }
              else s1
    enterWork now s2
  else
    enterIdle s

/-- The WORK-state time logic of loop: on expiry, beep, count the pomodoro,
book the actual focus duration, stage and flush a snapshot, cap the visual
counter, refresh the LEDs and enter BREAK. -/
def timeWork (now : Nat) (s : Sys) : Sys × Effects :=
  if now - s.phaseStartTime ≥ s.phaseDuration then
    let s1 := { s with totalPomodoroCount := s.totalPomodoroCount + 1 }
    let workDurationMs := now - s1.phaseStartTime
    let s2 := { s1 with totalFocusTimeMs := s1.totalFocusTimeMs + workDurationMs }
    let snap := snapshotOf s2
    let s3 := if s2.pomodoroCount > 4 then { s2 with pomodoroCount := 4 } else s2
    let s4 := updateProgressLEDs s3
    (enterBreak now s4, ⟨1, [snap]⟩)
  else
    (s, noEffects)

/-- The BREAK-state time logic of loop: once the minimum break elapses (and
only the first time), beep, record the uptime-based session time, stage and
flush a snapshot and raise the continuation flag; afterwards run the blink
animation while the flag is up. -/
def timeBreak (now : Nat) (s : Sys) : Sys × Effects :=
  let first :=
    if s.breakAwaitingButton = false ∧ now - s.phaseStartTime ≥ s.phaseDuration then
      let s1 := { s with totalSessionTimeMs := now }
      (({ s1 with breakAwaitingButton := true } : Sys),
        (⟨1, [snapshotOf s1]⟩ : Effects))
    else
      (s, noEffects)
  let s1 := first.1
  let s2 :=
    if s1.breakAwaitingButton = true then
      if now - s1.waitBlinkLast ≥ WAIT_BLINK_MS then
        let s1a := { s1 with waitBlinkLast := now, waitBlinkOn := !s1.waitBlinkOn }
        if s1a.waitBlinkOn = true then setRGB false false true s1a
        else setRGB false false false s1a
      else s1
    else s1
  (s2, first.2)

/-- One invocation of loop: the press branch runs exclusively when a press
event was consumed (the early return), otherwise the per-state time logic. -/
def loopTick (pressed : Bool) (now : Nat) (s : Sys) : Sys × Effects :=
  if pressed = true then
    (handlePress now s, noEffects)
  else if s.currentState = State.WORK then
    timeWork now s
  else if s.currentState = State.BREAK then
    timeBreak now s
  else
    (s, noEffects)

/-- Global variables as initialised at boot, before setup runs. -/
def bootSys : Sys :=
  { currentState := State.IDLE, phaseStartTime := 0, phaseDuration := 0,
    pomodoroCount := 0, breakAwaitingButton := false,
    totalSessionTimeMs := 0, totalFocusTimeMs := 0, totalRestTimeMs := 0,
    totalPomodoroCount := 0, waitBlinkLast := 0, waitBlinkOn := false,
    rgbR := true, rgbG := true, rgbB := true,
    ledP1 := false, ledP2 := false, ledP3 := false, ledP4 := false }

/-- State after setup: counter reset, LEDs refreshed, IDLE entered. -/
def initState : Sys :=
  enterIdle (updateProgressLEDs { bootSys with pomodoroCount := 0 })

/-- Run a sequence of loop invocations, each given as (press consumed, now). -/
def run (s : Sys) (evs : List (Bool × Nat)) : Sys :=
  evs.foldl (fun s e => (loopTick e.1 e.2 s).1) s

/-- Timestamps of an event list are chronological and bounded below by t. -/
def chronoFrom : Nat → List (Bool × Nat) → Bool
  | _, [] => true
  | t, e :: rest => decide (t ≤ e.2) && chronoFrom e.2 rest

/-- Timestamp of the last event, or the given default for an empty list. -/
def lastT : Nat → List (Bool × Nat) → Nat
  | t, [] => t
  | _, e :: rest => lastT e.2 rest

/-- Inductive invariant of the control loop, relative to the timestamp t of
the last tick: the phase start is in the past, the phase duration matches the
configured target of the current state, and the pending-continuation flag is
up exactly when the minimum break duration has elapsed in BREAK. -/
def Inv (t : Nat) (s : Sys) : Prop :=
  s.phaseStartTime ≤ t ∧
  (s.currentState = State.WORK → s.phaseDuration = WORK_TIME) ∧
  (s.currentState = State.BREAK → s.phaseDuration = BREAK_TIME) ∧
  (s.breakAwaitingButton = true ↔
    (s.currentState = State.BREAK ∧ s.phaseDuration ≤ t - s.phaseStartTime))

/-- Internal state of the debounced edge detector (HIGH = true). -/
structure Btn where
  stableState : Bool
  lastReading : Bool
  lastChange : Nat
  lastEvent : Nat
deriving DecidableEq, Repr

/-- Static variables of buttonPressed at boot. -/
def initBtn : Btn := ⟨true, true, 0, 0⟩

/-- buttonPressed: track raw changes, commit a level stable for the debounce
window, and report a press on a commit to LOW outside the cooldown window. -/
def buttonPressed (reading : Bool) (now : Nat) (b : Btn) : Btn × Bool :=
  let b1 := if reading ≠ b.lastReading then
              { b with lastReading := reading, lastChange := now }
            else b
  if now - b1.lastChange ≥ DEBOUNCE_MS ∧ reading ≠ b1.stableState then
    let b2 := { b1 with stableState := reading }
    if b2.stableState = false then
      if now - b2.lastEvent ≥ COOLDOWN_MS then
        ({ b2 with lastEvent := now }, true)
      else (b2, false)
    else (b2, false)
  else
    (b1, false)

/-- Detector state after a sequence of polls, each given as (raw level, now). -/
def runBtn (b : Btn) (polls : List (Bool × Nat)) : Btn :=
  polls.foldl (fun b p => (buttonPressed p.1 p.2 b).1) b

/-- Timestamps of the press events reported along a sequence of polls. -/
def btnEvents (b : Btn) : List (Bool × Nat) → List Nat
  | [] => []
  | p :: rest =>
    if (buttonPressed p.1 p.2 b).2 = true then
      p.2 :: btnEvents (buttonPressed p.1 p.2 b).1 rest
    else
      btnEvents (buttonPressed p.1 p.2 b).1 rest

/-! Helper lemmas: field projections of the state-entry handlers. -/

section EntryLemmas

variable (now : Nat) (s : Sys) (r g b : Bool)

@[simp] lemma setRGB_currentState : (setRGB r g b s).currentState = s.currentState := rfl

@[simp] lemma setRGB_phaseStartTime : (setRGB r g b s).phaseStartTime = s.phaseStartTime := rfl

@[simp] lemma setRGB_phaseDuration : (setRGB r g b s).phaseDuration = s.phaseDuration := rfl

@[simp] lemma setRGB_pomodoroCount : (setRGB r g b s).pomodoroCount = s.pomodoroCount := rfl

@[simp] lemma setRGB_breakAwaitingButton :
    (setRGB r g b s).breakAwaitingButton = s.breakAwaitingButton := rfl

@[simp] lemma setRGB_totalSessionTimeMs :
    (setRGB r g b s).totalSessionTimeMs = s.totalSessionTimeMs := rfl

@[simp] lemma setRGB_totalFocusTimeMs :
    (setRGB r g b s).totalFocusTimeMs = s.totalFocusTimeMs := rfl

@[simp] lemma setRGB_totalRestTimeMs :
    (setRGB r g b s).totalRestTimeMs = s.totalRestTimeMs := rfl

@[simp] lemma setRGB_totalPomodoroCount :
    (setRGB r g b s).totalPomodoroCount = s.totalPomodoroCount := rfl

@[simp] lemma setRGB_waitBlinkLast : (setRGB r g b s).waitBlinkLast = s.waitBlinkLast := rfl

@[simp] lemma setRGB_waitBlinkOn : (setRGB r g b s).waitBlinkOn = s.waitBlinkOn := rfl

@[simp] lemma updateProgressLEDs_currentState :
    (updateProgressLEDs s).currentState = s.currentState := rfl

@[simp] lemma updateProgressLEDs_phaseStartTime :
    (updateProgressLEDs s).phaseStartTime = s.phaseStartTime := rfl

@[simp] lemma updateProgressLEDs_phaseDuration :
    (updateProgressLEDs s).phaseDuration = s.phaseDuration := rfl

@[simp] lemma updateProgressLEDs_pomodoroCount :
    (updateProgressLEDs s).pomodoroCount = s.pomodoroCount := rfl

@[simp] lemma updateProgressLEDs_breakAwaitingButton :
    (updateProgressLEDs s).breakAwaitingButton = s.breakAwaitingButton := rfl

@[simp] lemma updateProgressLEDs_totalSessionTimeMs :
    (updateProgressLEDs s).totalSessionTimeMs = s.totalSessionTimeMs := rfl

@[simp] lemma updateProgressLEDs_totalFocusTimeMs :
    (updateProgressLEDs s).totalFocusTimeMs = s.totalFocusTimeMs := rfl

@[simp] lemma updateProgressLEDs_totalRestTimeMs :
    (updateProgressLEDs s).totalRestTimeMs = s.totalRestTimeMs := rfl

@[simp] lemma updateProgressLEDs_totalPomodoroCount :
    (updateProgressLEDs s).totalPomodoroCount = s.totalPomodoroCount := rfl

@[simp] lemma updateProgressLEDs_waitBlinkLast :
    (updateProgressLEDs s).waitBlinkLast = s.waitBlinkLast := rfl

@[simp] lemma updateProgressLEDs_waitBlinkOn :
    (updateProgressLEDs s).waitBlinkOn = s.waitBlinkOn := rfl

@[simp] lemma enterIdle_currentState : (enterIdle s).currentState = State.IDLE := rfl

@[simp] lemma enterIdle_breakAwaitingButton : (enterIdle s).breakAwaitingButton = false := rfl

@[simp] lemma enterIdle_phaseStartTime : (enterIdle s).phaseStartTime = s.phaseStartTime := rfl

@[simp] lemma enterIdle_phaseDuration : (enterIdle s).phaseDuration = s.phaseDuration := rfl

@[simp] lemma enterIdle_pomodoroCount : (enterIdle s).pomodoroCount = s.pomodoroCount := rfl

@[simp] lemma enterIdle_totalSessionTimeMs :
    (enterIdle s).totalSessionTimeMs = s.totalSessionTimeMs := rfl

@[simp] lemma enterIdle_totalFocusTimeMs :
    (enterIdle s).totalFocusTimeMs = s.totalFocusTimeMs := rfl

@[simp] lemma enterIdle_totalRestTimeMs :
    (enterIdle s).totalRestTimeMs = s.totalRestTimeMs := rfl

@[simp] lemma enterIdle_totalPomodoroCount :
    (enterIdle s).totalPomodoroCount = s.totalPomodoroCount := rfl

@[simp] lemma enterIdle_waitBlinkLast : (enterIdle s).waitBlinkLast = s.waitBlinkLast := rfl

@[simp] lemma enterIdle_waitBlinkOn : (enterIdle s).waitBlinkOn = s.waitBlinkOn := rfl

@[simp] lemma enterIdle_rgbR : (enterIdle s).rgbR = true := rfl

@[simp] lemma enterIdle_rgbG : (enterIdle s).rgbG = true := rfl

@[simp] lemma enterIdle_rgbB : (enterIdle s).rgbB = true := rfl

@[simp] lemma enterWork_currentState : (enterWork now s).currentState = State.WORK := by
  simp only [enterWork]
  split <;> rfl

@[simp] lemma enterWork_phaseStartTime : (enterWork now s).phaseStartTime = now := by
  simp only [enterWork]
  split <;> rfl

@[simp] lemma enterWork_phaseDuration : (enterWork now s).phaseDuration = WORK_TIME := by
  simp only [enterWork]
  split <;> rfl

@[simp] lemma enterWork_breakAwaitingButton : (enterWork now s).breakAwaitingButton = false := rfl

@[simp] lemma enterWork_pomodoroCount :
    (enterWork now s).pomodoroCount =
      if s.pomodoroCount + 1 > 4 then 4 else s.pomodoroCount + 1 := by
  simp only [enterWork]
  split <;> simp [setRGB, updateProgressLEDs, RGB_COMMON_ANODE]

@[simp] lemma enterWork_totalSessionTimeMs :
    (enterWork now s).totalSessionTimeMs = s.totalSessionTimeMs := by
  simp only [enterWork]
  split <;> rfl

@[simp] lemma enterWork_totalFocusTimeMs :
    (enterWork now s).totalFocusTimeMs = s.totalFocusTimeMs := by
  simp only [enterWork]
  split <;> rfl

@[simp] lemma enterWork_totalRestTimeMs :
    (enterWork now s).totalRestTimeMs = s.totalRestTimeMs := by
  simp only [enterWork]
  split <;> rfl

@[simp] lemma enterWork_totalPomodoroCount :
    (enterWork now s).totalPomodoroCount = s.totalPomodoroCount := by
  simp only [enterWork]
  split <;> rfl

@[simp] lemma enterWork_waitBlinkLast : (enterWork now s).waitBlinkLast = s.waitBlinkLast := by
  simp only [enterWork]
  split <;> rfl

@[simp] lemma enterWork_waitBlinkOn : (enterWork now s).waitBlinkOn = s.waitBlinkOn := by
  simp only [enterWork]
  split <;> rfl

@[simp] lemma enterBreak_currentState : (enterBreak now s).currentState = State.BREAK := rfl

@[simp] lemma enterBreak_phaseStartTime : (enterBreak now s).phaseStartTime = now := rfl

@[simp] lemma enterBreak_phaseDuration : (enterBreak now s).phaseDuration = BREAK_TIME := rfl

@[simp] lemma enterBreak_breakAwaitingButton :
    (enterBreak now s).breakAwaitingButton = false := rfl

@[simp] lemma enterBreak_pomodoroCount : (enterBreak now s).pomodoroCount = s.pomodoroCount := rfl

@[simp] lemma enterBreak_totalSessionTimeMs :
    (enterBreak now s).totalSessionTimeMs = s.totalSessionTimeMs := rfl

@[simp] lemma enterBreak_totalFocusTimeMs :
    (enterBreak now s).totalFocusTimeMs = s.totalFocusTimeMs := rfl

@[simp] lemma enterBreak_totalRestTimeMs :
    (enterBreak now s).totalRestTimeMs = s.totalRestTimeMs := rfl

@[simp] lemma enterBreak_totalPomodoroCount :
    (enterBreak now s).totalPomodoroCount = s.totalPomodoroCount := rfl

@[simp] lemma enterBreak_waitBlinkLast : (enterBreak now s).waitBlinkLast = now := rfl

@[simp] lemma enterBreak_waitBlinkOn : (enterBreak now s).waitBlinkOn = true := rfl

end EntryLemmas

/-! Helper lemmas: branch behaviour of the loop body. -/

section LoopLemmas

variable (now : Nat) (s : Sys)

lemma loopTick_press : loopTick true now s = (handlePress now s, noEffects) := rfl

lemma loopTick_idle (h : s.currentState = State.IDLE) :
    loopTick false now s = (s, noEffects) := by
  simp [loopTick, h]

lemma loopTick_work (h : s.currentState = State.WORK) :
    loopTick false now s = timeWork now s := by
  simp [loopTick, h]

lemma loopTick_breakState (h : s.currentState = State.BREAK) :
    loopTick false now s = timeBreak now s := by
  simp [loopTick, h]

lemma handlePress_idle_eq (h : s.currentState = State.IDLE) :
    handlePress now s = enterWork now (updateProgressLEDs { s with pomodoroCount := 0 }) := by
  simp [handlePress, h]

lemma handlePress_resume_eq (h1 : s.currentState = State.BREAK)
    (h2 : s.breakAwaitingButton = true) :
    handlePress now s =
      enterWork now
        (let s1 := { s with totalRestTimeMs := s.totalRestTimeMs + (now - s.phaseStartTime) }
         if s1.pomodoroCount ≥ 4 then updateProgressLEDs { s1 with pomodoroCount := 0 }
         else s1) := by
  simp [handlePress, h1, h2]

lemma handlePress_reset_eq (h1 : s.currentState ≠ State.IDLE)
    (h2 : ¬(s.currentState = State.BREAK ∧ s.breakAwaitingButton = true)) :
    handlePress now s = enterIdle s := by
  simp only [handlePress, if_neg h1, if_neg h2]

lemma handlePress_breakAwaitingButton : (handlePress now s).breakAwaitingButton = false := by
  by_cases h1 : s.currentState = State.IDLE
  · simp [handlePress_idle_eq now s h1]
  · by_cases h2 : s.currentState = State.BREAK ∧ s.breakAwaitingButton = true
    · simp only [handlePress_resume_eq now s h2.1 h2.2]
      split <;> simp
    · simp [handlePress_reset_eq now s h1 h2]

lemma handlePress_state :
    (handlePress now s).currentState = State.WORK ∨
      (handlePress now s).currentState = State.IDLE := by
  by_cases h1 : s.currentState = State.IDLE
  · left; simp [handlePress_idle_eq now s h1]
  · by_cases h2 : s.currentState = State.BREAK ∧ s.breakAwaitingButton = true
    · left; simp [handlePress_resume_eq now s h2.1 h2.2]
    · right; simp [handlePress_reset_eq now s h1 h2]

lemma handlePress_totalPomodoroCount :
    (handlePress now s).totalPomodoroCount = s.totalPomodoroCount := by
  by_cases h1 : s.currentState = State.IDLE
  · simp [handlePress_idle_eq now s h1]
  · by_cases h2 : s.currentState = State.BREAK ∧ s.breakAwaitingButton = true
    · simp only [handlePress_resume_eq now s h2.1 h2.2]
      split <;> simp
    · simp [handlePress_reset_eq now s h1 h2]

lemma handlePress_totalFocusTimeMs :
    (handlePress now s).totalFocusTimeMs = s.totalFocusTimeMs := by
  by_cases h1 : s.currentState = State.IDLE
  · simp [handlePress_idle_eq now s h1]
  · by_cases h2 : s.currentState = State.BREAK ∧ s.breakAwaitingButton = true
    · simp only [handlePress_resume_eq now s h2.1 h2.2]
      split <;> simp
    · simp [handlePress_reset_eq now s h1 h2]

lemma handlePress_totalSessionTimeMs :
    (handlePress now s).totalSessionTimeMs = s.totalSessionTimeMs := by
  by_cases h1 : s.currentState = State.IDLE
  · simp [handlePress_idle_eq now s h1]
  · by_cases h2 : s.currentState = State.BREAK ∧ s.breakAwaitingButton = true
    · simp only [handlePress_resume_eq now s h2.1 h2.2]
      split <;> simp
    · simp [handlePress_reset_eq now s h1 h2]

lemma handlePress_waitBlinkLast :
    (handlePress now s).waitBlinkLast = s.waitBlinkLast := by
  by_cases h1 : s.currentState = State.IDLE
  · simp [handlePress_idle_eq now s h1]
  · by_cases h2 : s.currentState = State.BREAK ∧ s.breakAwaitingButton = true
    · simp only [handlePress_resume_eq now s h2.1 h2.2]
      split <;> simp
    · simp [handlePress_reset_eq now s h1 h2]

lemma handlePress_waitBlinkOn :
    (handlePress now s).waitBlinkOn = s.waitBlinkOn := by
  by_cases h1 : s.currentState = State.IDLE
  · simp [handlePress_idle_eq now s h1]
  · by_cases h2 : s.currentState = State.BREAK ∧ s.breakAwaitingButton = true
    · simp only [handlePress_resume_eq now s h2.1 h2.2]
      split <;> simp
    · simp [handlePress_reset_eq now s h1 h2]

lemma timeBreak_fst_currentState : ((timeBreak now s).1).currentState = s.currentState := by
  simp only [timeBreak]
  split_ifs <;> simp

lemma timeBreak_fst_phaseStartTime : ((timeBreak now s).1).phaseStartTime = s.phaseStartTime := by
  simp only [timeBreak]
  split_ifs <;> simp

lemma timeBreak_fst_phaseDuration : ((timeBreak now s).1).phaseDuration = s.phaseDuration := by
  simp only [timeBreak]
  split_ifs <;> simp

lemma timeBreak_fst_breakAwaitingButton :
    ((timeBreak now s).1).breakAwaitingButton =
      (if s.breakAwaitingButton = false ∧ s.phaseDuration ≤ now - s.phaseStartTime then true
       else s.breakAwaitingButton) := by
  simp only [timeBreak]
  split_ifs <;> simp

lemma timeBreak_fst_pomodoroCount : ((timeBreak now s).1).pomodoroCount = s.pomodoroCount := by
  simp only [timeBreak]
  split_ifs <;> simp

lemma timeBreak_fst_totalFocusTimeMs :
    ((timeBreak now s).1).totalFocusTimeMs = s.totalFocusTimeMs := by
  simp only [timeBreak]
  split_ifs <;> simp

lemma timeBreak_fst_totalRestTimeMs :
    ((timeBreak now s).1).totalRestTimeMs = s.totalRestTimeMs := by
  simp only [timeBreak]
  split_ifs <;> simp

lemma timeBreak_fst_totalPomodoroCount :
    ((timeBreak now s).1).totalPomodoroCount = s.totalPomodoroCount := by
  simp only [timeBreak]
  split_ifs <;> simp

lemma timeBreak_fst_totalSessionTimeMs :
    ((timeBreak now s).1).totalSessionTimeMs =
      (if s.breakAwaitingButton = false ∧ s.phaseDuration ≤ now - s.phaseStartTime then now
       else s.totalSessionTimeMs) := by
  simp only [timeBreak]
  split_ifs <;> simp_all

lemma timeBreak_snd :
    (timeBreak now s).2 =
      (if s.breakAwaitingButton = false ∧ s.phaseDuration ≤ now - s.phaseStartTime then
         (⟨1, [snapshotOf { s with totalSessionTimeMs := now }]⟩ : Effects)
       else noEffects) := by
  simp only [timeBreak]
  split_ifs <;> simp_all

lemma timeWork_not_expired (h : ¬ s.phaseDuration ≤ now - s.phaseStartTime) :
    timeWork now s = (s, noEffects) := by
  simp [timeWork, h]

lemma timeWork_expired_spec (h : s.phaseDuration ≤ now - s.phaseStartTime) :
    (timeWork now s).1.currentState = State.BREAK ∧
    (timeWork now s).1.totalPomodoroCount = s.totalPomodoroCount + 1 ∧
    (timeWork now s).1.totalFocusTimeMs = s.totalFocusTimeMs + (now - s.phaseStartTime) ∧
    (timeWork now s).2.beeps = 1 ∧
    (timeWork now s).2.flushes =
      [⟨s.totalPomodoroCount + 1, s.totalSessionTimeMs,
        s.totalFocusTimeMs + (now - s.phaseStartTime), s.totalRestTimeMs⟩] ∧
    (timeWork now s).1.phaseStartTime = now ∧
    (timeWork now s).1.phaseDuration = BREAK_TIME ∧
    (timeWork now s).1.breakAwaitingButton = false ∧
    (timeWork now s).1.totalRestTimeMs = s.totalRestTimeMs ∧
    (timeWork now s).1.totalSessionTimeMs = s.totalSessionTimeMs := by
  simp only [timeWork, ge_iff_le, if_pos h, snapshotOf]
  split_ifs <;> simp

end LoopLemmas

/-! The inductive invariant and its preservation along runs. -/

section InvLemmas

lemma Inv_init : Inv 0 initState := by
  simp [Inv, initState, bootSys, enterIdle, updateProgressLEDs, setRGB, RGB_COMMON_ANODE]

theorem Inv_step {t t' : Nat} (s : Sys) (pr : Bool) (hInv : Inv t s) (hle : t ≤ t') :
    Inv t' (loopTick pr t' s).1 := by
  obtain ⟨hstart, hwd, hbd, hflag⟩ := hInv
  have hflagFalse : s.currentState ≠ State.BREAK → s.breakAwaitingButton = false := by
    intro hne
    cases hb : s.breakAwaitingButton
    · rfl
    · exact absurd (hflag.mp hb).1 hne
  cases pr with
  | true =>
    rw [loopTick_press]
    by_cases h1 : s.currentState = State.IDLE
    · rw [handlePress_idle_eq _ _ h1]
      exact ⟨by simp, by simp, by simp, by simp⟩
    · by_cases h2 : s.currentState = State.BREAK ∧ s.breakAwaitingButton = true
      · rw [handlePress_resume_eq _ _ h2.1 h2.2]
        exact ⟨by simp, by simp, by simp, by simp⟩
      · rw [handlePress_reset_eq _ _ h1 h2]
        exact ⟨by simpa using le_trans hstart hle, by simp, by simp, by simp⟩
  | false =>
    cases hs : s.currentState with
    | IDLE =>
      rw [loopTick_idle _ _ hs]
      exact ⟨le_trans hstart hle, by simp [hs], by simp [hs],
        by simp [hs, hflagFalse (by simp [hs])]⟩
    | WORK =>
      rw [loopTick_work _ _ hs]
      by_cases hexp : s.phaseDuration ≤ t' - s.phaseStartTime
      · obtain ⟨hc, _, _, _, _, hst, hd, hf, _, _⟩ := timeWork_expired_spec t' s hexp
        refine ⟨by rw [hst], ?_, fun _ => hd, ?_⟩
        · rw [hc]; intro h; cases h
        · rw [hf, hc, hst, hd]
          simp [BREAK_TIME]
      · rw [timeWork_not_expired _ _ hexp]
        exact ⟨le_trans hstart hle, hwd, hbd,
          by simp [hs, hflagFalse (by simp [hs]), hexp]⟩
    | BREAK =>
      rw [loopTick_breakState _ _ hs]
      refine ⟨?_, ?_, ?_, ?_⟩
      · rw [timeBreak_fst_phaseStartTime]; exact le_trans hstart hle
      · rw [timeBreak_fst_currentState, hs]; intro h; cases h
      · rw [timeBreak_fst_phaseDuration]; exact fun _ => hbd hs
      · rw [timeBreak_fst_breakAwaitingButton, timeBreak_fst_currentState,
          timeBreak_fst_phaseDuration, timeBreak_fst_phaseStartTime, hs]
        by_cases hb : s.breakAwaitingButton = true
        · have h3 := (hflag.mp hb).2
          have hcond : ¬(s.breakAwaitingButton = false ∧
              s.phaseDuration ≤ t' - s.phaseStartTime) := by
            simp [hb]
          rw [if_neg hcond, hb]
          constructor
          · intro _
            exact ⟨rfl, by omega⟩
          · intro _
            rfl
        · have hb' : s.breakAwaitingButton = false := by
            cases h : s.breakAwaitingButton
            · rfl
            · exact absurd h hb
          by_cases hexp : s.phaseDuration ≤ t' - s.phaseStartTime
          · simp [hb', hexp]
          · simp [hb', hexp]

theorem Inv_run (evs : List (Bool × Nat)) :
    ∀ (t : Nat) (s : Sys), Inv t s → chronoFrom t evs = true →
      Inv (lastT t evs) (run s evs) := by
  induction evs with
  | nil =>
    intro t s h _
    simpa [run, lastT] using h
  | cons e rest ih =>
    intro t s h hc
    simp only [chronoFrom, Bool.and_eq_true, decide_eq_true_eq] at hc
    have h1 := Inv_step s e.1 h hc.1
    have h2 := ih e.2 _ h1 hc.2
    simpa [run, lastT] using h2

end InvLemmas

/-! Helper lemmas for the debounced edge detector. -/

section BtnLemmas

lemma buttonPressed_fired {r : Bool} {t : Nat} {b : Btn}
    (h : (buttonPressed r t b).2 = true) :
    r = false ∧ (buttonPressed r t b).1.stableState = false ∧
      (buttonPressed r t b).1.lastEvent = t ∧ COOLDOWN_MS ≤ t - b.lastEvent := by
  simp only [buttonPressed] at h ⊢
  split_ifs at h ⊢ <;> simp_all

lemma buttonPressed_not_fired_lastEvent {r : Bool} {t : Nat} {b : Btn}
    (h : (buttonPressed r t b).2 = false) :
    (buttonPressed r t b).1.lastEvent = b.lastEvent := by
  simp only [buttonPressed] at h ⊢
  split_ifs at h ⊢ <;> simp_all

lemma buttonPressed_low_stable {t : Nat} {b : Btn} (h : b.stableState = false) :
    (buttonPressed false t b).2 = false ∧
      (buttonPressed false t b).1.stableState = false := by
  simp only [buttonPressed]
  split_ifs <;> simp_all

lemma btnEvents_first (polls : List (Bool × Nat)) :
    ∀ (b : Btn) (e : Nat), (btnEvents b polls).head? = some e →
      b.lastEvent + COOLDOWN_MS ≤ e := by
  induction polls with
  | nil =>
    intro b e h
    simp [btnEvents] at h
  | cons p rest ih =>
    intro b e h
    by_cases hf : (buttonPressed p.1 p.2 b).2 = true
    · rw [btnEvents, if_pos hf] at h
      simp only [List.head?_cons, Option.some.injEq] at h
      have hcool := (buttonPressed_fired hf).2.2.2
      have hc : COOLDOWN_MS = 250 := rfl
      omega
    · rw [btnEvents, if_neg hf] at h
      have hle : (buttonPressed p.1 p.2 b).1.lastEvent = b.lastEvent :=
        buttonPressed_not_fired_lastEvent (by simpa using hf)
      have := ih _ _ h
      omega

lemma btnEvents_chain (polls : List (Bool × Nat)) :
    ∀ b : Btn, List.Chain' (fun a c => a + COOLDOWN_MS ≤ c) (btnEvents b polls) := by
  induction polls with
  | nil =>
    intro b
    simp [btnEvents]
  | cons p rest ih =>
    intro b
    by_cases hf : (buttonPressed p.1 p.2 b).2 = true
    · rw [btnEvents, if_pos hf, List.chain'_cons']
      refine ⟨?_, ih _⟩
      intro e he
      have h1 := btnEvents_first rest _ e (by simpa using he)
      have h2 := (buttonPressed_fired hf).2.2.1
      omega
    · rw [btnEvents, if_neg hf]
      exact ih _

lemma btnEvents_held_low (polls : List (Bool × Nat)) :
    ∀ b : Btn, b.stableState = false → (∀ p ∈ polls, p.1 = false) →
      btnEvents b polls = [] := by
  induction polls with
  | nil =>
    intro b _ _
    simp [btnEvents]
  | cons p rest ih =>
    intro b hb hlow
    have hp : p.1 = false := hlow p (List.mem_cons_self p rest)
    have hbp := buttonPressed_low_stable (t := p.2) (b := b) hb
    rw [btnEvents]
    rw [hp] at *
    rw [if_neg (by simp [hbp.1])]
    exact ih _ hbp.2 fun q hq => hlow q (List.mem_cons_of_mem p hq)

end BtnLemmas

/-! Claim theorems. -/

/-- C1 counterexample: from the initial (IDLE) state, a consumed press does
move the machine to WORK within the tick, but the display progress counter
does not end the tick at 0 as claimed: the Work-entry routine increments it
after the reset, so it ends at 1. -/
theorem c1_counterexample :
    initState.currentState = State.IDLE ∧
    (loopTick true 1000 initState).1.currentState = State.WORK ∧
    ¬ (loopTick true 1000 initState).1.pomodoroCount = 0 := by
  decide

/-- C1 (amended): on every tick consuming a press in IDLE, the state becomes
WORK, the display progress counter is reset to 0 and then incremented by the
Work-entry routine so it ends the tick at 1, the completed-cycle tally is not
incremented, the phase timer is freshly started with the configured work
duration, the continuation flag is clear, and the tick has no effects. -/
theorem c1_idle_press_starts_work (s : Sys) (now : Nat)
    (h : s.currentState = State.IDLE) :
    (loopTick true now s).1.currentState = State.WORK ∧
    (loopTick true now s).1.pomodoroCount = 1 ∧
    (loopTick true now s).1.totalPomodoroCount = s.totalPomodoroCount ∧
    (loopTick true now s).1.phaseStartTime = now ∧
    (loopTick true now s).1.phaseDuration = WORK_TIME ∧
    (loopTick true now s).1.breakAwaitingButton = false ∧
    (loopTick true now s).2 = noEffects := by
  rw [loopTick_press, handlePress_idle_eq now s h]
  refine ⟨by simp, ?_, by simp, by simp, by simp, by simp, rfl⟩
  rw [enterWork_pomodoroCount]
  norm_num

/-- C1 witness: the amended claim evaluated at the initial state. -/
theorem c1_witness :
    initState.currentState = State.IDLE ∧
    ((loopTick true 1000 initState).1.currentState = State.WORK ∧
     (loopTick true 1000 initState).1.pomodoroCount = 1 ∧
     (loopTick true 1000 initState).1.totalPomodoroCount = initState.totalPomodoroCount ∧
     (loopTick true 1000 initState).1.phaseStartTime = 1000 ∧
     (loopTick true 1000 initState).1.phaseDuration = WORK_TIME ∧
     (loopTick true 1000 initState).1.breakAwaitingButton = false ∧
     (loopTick true 1000 initState).2 = noEffects) :=
  ⟨by decide, c1_idle_press_starts_work initState 1000 (by decide)⟩

/-- C2: on every tick without a press, in WORK with the configured duration
elapsed, the machine moves to BREAK, pulses the buzzer exactly once,
increments the uncapped tally by exactly 1, adds the actual elapsed work time
to the cumulative focus total, and flushes exactly one telemetry snapshot
(whose rest and session fields are the current totals).  The phase-duration
hypothesis holds in every reachable WORK state by the loop invariant. -/
theorem c2_work_expiry (s : Sys) (now : Nat)
    (hstate : s.currentState = State.WORK)
    (hdur : s.phaseDuration = WORK_TIME)
    (hexp : WORK_TIME ≤ now - s.phaseStartTime) :
    (loopTick false now s).1.currentState = State.BREAK ∧
    (loopTick false now s).2.beeps = 1 ∧
    (loopTick false now s).1.totalPomodoroCount = s.totalPomodoroCount + 1 ∧
    (loopTick false now s).1.totalFocusTimeMs =
      s.totalFocusTimeMs + (now - s.phaseStartTime) ∧
    (loopTick false now s).2.flushes =
      [⟨s.totalPomodoroCount + 1, s.totalSessionTimeMs,
        s.totalFocusTimeMs + (now - s.phaseStartTime), s.totalRestTimeMs⟩] := by
  rw [loopTick_work _ _ hstate]
  have h := timeWork_expired_spec now s (by rw [hdur]; exact hexp)
  exact ⟨h.1, h.2.2.2.1, h.2.1, h.2.2.1, h.2.2.2.2.1⟩

/-- C2 witness: the claim evaluated on the reachable WORK state reached by a
press at time 0, with the expiry tick at time 10000. -/
theorem c2_witness :
    ((loopTick true 0 initState).1.currentState = State.WORK ∧
     (loopTick true 0 initState).1.phaseDuration = WORK_TIME ∧
     WORK_TIME ≤ 10000 - (loopTick true 0 initState).1.phaseStartTime) ∧
    ((loopTick false 10000 (loopTick true 0 initState).1).1.currentState = State.BREAK ∧
     (loopTick false 10000 (loopTick true 0 initState).1).2.beeps = 1 ∧
     (loopTick false 10000 (loopTick true 0 initState).1).1.totalPomodoroCount =
       (loopTick true 0 initState).1.totalPomodoroCount + 1 ∧
     (loopTick false 10000 (loopTick true 0 initState).1).1.totalFocusTimeMs =
       (loopTick true 0 initState).1.totalFocusTimeMs +
         (10000 - (loopTick true 0 initState).1.phaseStartTime) ∧
     (loopTick false 10000 (loopTick true 0 initState).1).2.flushes =
       [⟨(loopTick true 0 initState).1.totalPomodoroCount + 1,
         (loopTick true 0 initState).1.totalSessionTimeMs,
         (loopTick true 0 initState).1.totalFocusTimeMs +
           (10000 - (loopTick true 0 initState).1.phaseStartTime),
         (loopTick true 0 initState).1.totalRestTimeMs⟩]) :=
  ⟨by decide,
   c2_work_expiry (loopTick true 0 initState).1 10000 (by decide) (by decide) (by decide)⟩

/-- C4: on every tick where a press event was consumed, the time-based logic
is skipped entirely: no buzzer pulse, no telemetry flush, no pomodoro count
or focus/session accumulation, no blink-animation update, and the
pending-continuation flag cannot be raised. -/
theorem c4_press_excludes_time_logic (s : Sys) (now : Nat) :
    (loopTick true now s).2 = noEffects ∧
    (loopTick true now s).1.totalPomodoroCount = s.totalPomodoroCount ∧
    (loopTick true now s).1.totalFocusTimeMs = s.totalFocusTimeMs ∧
    (loopTick true now s).1.totalSessionTimeMs = s.totalSessionTimeMs ∧
    (loopTick true now s).1.waitBlinkLast = s.waitBlinkLast ∧
    (loopTick true now s).1.waitBlinkOn = s.waitBlinkOn ∧
    (loopTick true now s).1.breakAwaitingButton = false :=
  ⟨rfl, handlePress_totalPomodoroCount now s, handlePress_totalFocusTimeMs now s,
   handlePress_totalSessionTimeMs now s, handlePress_waitBlinkLast now s,
   handlePress_waitBlinkOn now s, handlePress_breakAwaitingButton now s⟩

/-- C7: every consumed press matching no transition row (a press in WORK, or
a press in BREAK before the continuation flag is up) resets the machine to
IDLE, turns the state-indication RGB LED fully off (all pins HIGH on the
common-anode wiring) and clears the pending-continuation flag. -/
theorem c7_unmatched_press_resets (s : Sys) (now : Nat)
    (h : s.currentState = State.WORK ∨
      (s.currentState = State.BREAK ∧ s.breakAwaitingButton = false)) :
    (loopTick true now s).1.currentState = State.IDLE ∧
    (loopTick true now s).1.rgbR = true ∧
    (loopTick true now s).1.rgbG = true ∧
    (loopTick true now s).1.rgbB = true ∧
    (loopTick true now s).1.breakAwaitingButton = false := by
  have h1 : s.currentState ≠ State.IDLE := by
    rcases h with h | h
    · simp [h]
    · simp [h.1]
  have h2 : ¬(s.currentState = State.BREAK ∧ s.breakAwaitingButton = true) := by
    rcases h with h | h
    · simp [h]
    · simp [h.1, h.2]
  rw [loopTick_press, handlePress_reset_eq now s h1 h2]
  exact ⟨by simp, by simp, by simp, by simp, by simp⟩

/-- C7 witness: a press in the WORK state reached by a press at time 0. -/
theorem c7_witness :
    ((loopTick true 0 initState).1.currentState = State.WORK ∨
     ((loopTick true 0 initState).1.currentState = State.BREAK ∧
      (loopTick true 0 initState).1.breakAwaitingButton = false)) ∧
    ((loopTick true 5 (loopTick true 0 initState).1).1.currentState = State.IDLE ∧
     (loopTick true 5 (loopTick true 0 initState).1).1.rgbR = true ∧
     (loopTick true 5 (loopTick true 0 initState).1).1.rgbG = true ∧
     (loopTick true 5 (loopTick true 0 initState).1).1.rgbB = true ∧
     (loopTick true 5 (loopTick true 0 initState).1).1.breakAwaitingButton = false) :=
  ⟨by decide, c7_unmatched_press_resets (loopTick true 0 initState).1 5 (by decide)⟩

/-- C9: every press that resets the machine to IDLE leaves the uncapped
tally, the cumulative focus, rest and session totals, and the display
progress counter unchanged, and performs no flush and no pulse: partially
elapsed phase time is silently discarded. -/
theorem c9_reset_press_frame (s : Sys) (now : Nat)
    (h : s.currentState = State.WORK ∨
      (s.currentState = State.BREAK ∧ s.breakAwaitingButton = false)) :
    (loopTick true now s).1.totalPomodoroCount = s.totalPomodoroCount ∧
    (loopTick true now s).1.totalFocusTimeMs = s.totalFocusTimeMs ∧
    (loopTick true now s).1.totalRestTimeMs = s.totalRestTimeMs ∧
    (loopTick true now s).1.totalSessionTimeMs = s.totalSessionTimeMs ∧
    (loopTick true now s).1.pomodoroCount = s.pomodoroCount ∧
    (loopTick true now s).2.flushes = [] ∧
    (loopTick true now s).2.beeps = 0 := by
  have h1 : s.currentState ≠ State.IDLE := by
    rcases h with h | h
    · simp [h]
    · simp [h.1]
  have h2 : ¬(s.currentState = State.BREAK ∧ s.breakAwaitingButton = true) := by
    rcases h with h | h
    · simp [h]
    · simp [h.1, h.2]
  rw [loopTick_press, handlePress_reset_eq now s h1 h2]
  exact ⟨by simp, by simp, by simp, by simp, by simp, rfl, rfl⟩

/-- C9 witness: a press in the WORK state reached by a press at time 0,
consumed at time 7. -/
theorem c9_witness :
    ((loopTick true 0 initState).1.currentState = State.WORK ∨
     ((loopTick true 0 initState).1.currentState = State.BREAK ∧
      (loopTick true 0 initState).1.breakAwaitingButton = false)) ∧
    ((loopTick true 7 (loopTick true 0 initState).1).1.totalPomodoroCount =
       (loopTick true 0 initState).1.totalPomodoroCount ∧
     (loopTick true 7 (loopTick true 0 initState).1).1.totalFocusTimeMs =
       (loopTick true 0 initState).1.totalFocusTimeMs ∧
     (loopTick true 7 (loopTick true 0 initState).1).1.totalRestTimeMs =
       (loopTick true 0 initState).1.totalRestTimeMs ∧
     (loopTick true 7 (loopTick true 0 initState).1).1.totalSessionTimeMs =
       (loopTick true 0 initState).1.totalSessionTimeMs ∧
     (loopTick true 7 (loopTick true 0 initState).1).1.pomodoroCount =
       (loopTick true 0 initState).1.pomodoroCount ∧
     (loopTick true 7 (loopTick true 0 initState).1).2.flushes = [] ∧
     (loopTick true 7 (loopTick true 0 initState).1).2.beeps = 0) :=
  ⟨by decide, c9_reset_press_frame (loopTick true 0 initState).1 7 (by decide)⟩

/-- C3: in every state reachable by a chronological run from boot, the
pending-continuation flag is up exactly when the current state is BREAK and
the minimum break duration has elapsed since BREAK was entered; it is down
whenever the state is not BREAK, every state-entry handler clears it, and a
consumed press never leaves the machine in BREAK (so no press has ever been
consumed since the current BREAK was entered while the flag is up). -/
theorem c3_awaitingResume_iff (evs : List (Bool × Nat))
    (hchrono : chronoFrom 0 evs = true) :
    ((run initState evs).breakAwaitingButton = true ↔
      ((run initState evs).currentState = State.BREAK ∧
       (run initState evs).phaseDuration ≤
         lastT 0 evs - (run initState evs).phaseStartTime)) ∧
    ((run initState evs).currentState ≠ State.BREAK →
      (run initState evs).breakAwaitingButton = false) ∧
    (∀ s : Sys, (enterIdle s).breakAwaitingButton = false) ∧
    (∀ (now : Nat) (s : Sys), (enterWork now s).breakAwaitingButton = false) ∧
    (∀ (now : Nat) (s : Sys), (enterBreak now s).breakAwaitingButton = false) ∧
    (∀ (now : Nat) (s : Sys), (loopTick true now s).1.currentState ≠ State.BREAK) := by
  obtain ⟨-, -, -, hflag⟩ := Inv_run evs 0 initState Inv_init hchrono
  refine ⟨hflag, ?_, fun s => by simp, fun now s => by simp, fun now s => by simp, ?_⟩
  · intro hne
    cases hb : (run initState evs).breakAwaitingButton
    · rfl
    · exact absurd (hflag.mp hb).1 hne
  · intro now s
    rcases handlePress_state now s with h | h <;>
      · rw [loopTick_press]
        simp [h]

/-- C3 witness: the invariant evaluated after a single no-press tick. -/
theorem c3_witness :
    chronoFrom 0 [(false, 5)] = true ∧
    ((run initState [(false, 5)]).breakAwaitingButton = true ↔
      ((run initState [(false, 5)]).currentState = State.BREAK ∧
       (run initState [(false, 5)]).phaseDuration ≤
         lastT 0 [(false, 5)] - (run initState [(false, 5)]).phaseStartTime)) :=
  ⟨by decide, (c3_awaitingResume_iff [(false, 5)] (by decide)).1⟩

/-- C5 counterexample: with the raw level held LOW from boot (chronological
polls), a stable commit to LOW occurs at t = 30 yet zero press events are
reported, because the commit falls inside the cooldown window measured from
the initial lastEvent; this refutes the claimed "exactly one press event". -/
theorem c5_counterexample :
    chronoFrom 0 [(false, 0), (false, 30), (false, 300), (false, 600)] = true ∧
    (runBtn initBtn [(false, 0), (false, 30)]).stableState = false ∧
    btnEvents initBtn [(false, 0), (false, 30), (false, 300), (false, 600)] = [] := by
  decide

/-- C5 (amended): for chronological polls, reported press events are at
least one cooldown window apart (hence at most one per such interval); a raw
level held at the pressed level after a stable commit to it yields no
further press events (at most one in total, the commit's own report); and a
report only happens on a commit to the pressed (LOW) level. -/
theorem c5_debounce_guarantees :
    (∀ polls : List (Bool × Nat), chronoFrom 0 polls = true →
      List.Chain' (fun a c => a + COOLDOWN_MS ≤ c) (btnEvents initBtn polls)) ∧
    (∀ (polls : List (Bool × Nat)) (b : Btn), b.stableState = false →
      (∀ p ∈ polls, p.1 = false) → btnEvents b polls = []) ∧
    (∀ (r : Bool) (t : Nat) (b : Btn), (buttonPressed r t b).2 = true →
      r = false ∧ (buttonPressed r t b).1.stableState = false) :=
  ⟨fun polls _ => btnEvents_chain polls initBtn,
   fun polls b hb hlow => btnEvents_held_low polls b hb hlow,
   fun _ _ _ h => ⟨(buttonPressed_fired h).1, (buttonPressed_fired h).2.1⟩⟩

/-- C5 witness: the cooldown-gap guarantee evaluated on a concrete poll
sequence that reports one event. -/
theorem c5_witness :
    chronoFrom 0 [(false, 0), (false, 300)] = true ∧
    List.Chain' (fun a c => a + COOLDOWN_MS ≤ c)
      (btnEvents initBtn [(false, 0), (false, 300)]) :=
  ⟨by decide, c5_debounce_guarantees.1 [(false, 0), (false, 300)] (by decide)⟩

/-- C6 counterexample: in the reachable state with the display counter at
the cap 4, BREAK current and the continuation flag up, a consumed press does
move to WORK and the counter is reset to 0, but the Work-entry routine then
increments it, so it does not end the tick at 0. -/
theorem c6_counterexample :
    (run initState [(true, 0), (false, 10000), (false, 20000), (true, 20001),
        (false, 30001), (false, 40001), (true, 40002), (false, 50002),
        (false, 60002), (true, 60003), (false, 70003),
        (false, 80003)]).currentState = State.BREAK ∧
    (run initState [(true, 0), (false, 10000), (false, 20000), (true, 20001),
        (false, 30001), (false, 40001), (true, 40002), (false, 50002),
        (false, 60002), (true, 60003), (false, 70003),
        (false, 80003)]).breakAwaitingButton = true ∧
    (run initState [(true, 0), (false, 10000), (false, 20000), (true, 20001),
        (false, 30001), (false, 40001), (true, 40002), (false, 50002),
        (false, 60002), (true, 60003), (false, 70003),
        (false, 80003)]).pomodoroCount = 4 ∧
    chronoFrom 0 [(true, 0), (false, 10000), (false, 20000), (true, 20001),
        (false, 30001), (false, 40001), (true, 40002), (false, 50002),
        (false, 60002), (true, 60003), (false, 70003), (false, 80003)] = true ∧
    (loopTick true 80004
      (run initState [(true, 0), (false, 10000), (false, 20000), (true, 20001),
        (false, 30001), (false, 40001), (true, 40002), (false, 50002),
        (false, 60002), (true, 60003), (false, 70003),
        (false, 80003)])).1.currentState = State.WORK ∧
    ¬ (loopTick true 80004
      (run initState [(true, 0), (false, 10000), (false, 20000), (true, 20001),
        (false, 30001), (false, 40001), (true, 40002), (false, 50002),
        (false, 60002), (true, 60003), (false, 70003),
        (false, 80003)])).1.pomodoroCount = 0 := by
  decide

/-- C6 (amended): on every tick consuming a press in BREAK with the
continuation flag up, the machine moves to WORK with a freshly started work
timer, adds to the cumulative rest total exactly the real elapsed time since
BREAK was entered (now minus the phase start, not the configured target),
and the display counter — reset to 0 first when it was at the cap 4 — is
then incremented by the Work-entry routine, ending the tick at 1 from the
cap and at one more than before otherwise. -/
theorem c6_resume_press (s : Sys) (now : Nat)
    (h1 : s.currentState = State.BREAK) (h2 : s.breakAwaitingButton = true) :
    (loopTick true now s).1.currentState = State.WORK ∧
    (loopTick true now s).1.totalRestTimeMs =
      s.totalRestTimeMs + (now - s.phaseStartTime) ∧
    (loopTick true now s).1.pomodoroCount =
      (if s.pomodoroCount ≥ 4 then 1 else s.pomodoroCount + 1) ∧
    (loopTick true now s).1.phaseStartTime = now ∧
    (loopTick true now s).1.phaseDuration = WORK_TIME ∧
    (loopTick true now s).1.breakAwaitingButton = false := by
  rw [loopTick_press, handlePress_resume_eq now s h1 h2]
  refine ⟨by simp, ?_, ?_, by simp, by simp, by simp⟩
  · by_cases hc : s.pomodoroCount ≥ 4 <;> simp [hc]
  · by_cases hc : s.pomodoroCount ≥ 4
    · simp [hc]
    · have hlt : ¬ ((s.pomodoroCount + 1) > 4) := by omega
      simp [hc, hlt]

/-- C6 witness: the amended claim evaluated on the reachable BREAK state with
the flag up after one full work-plus-break cycle. -/
theorem c6_witness :
    ((run initState [(true, 0), (false, 10000), (false, 20000)]).currentState =
        State.BREAK ∧
     (run initState [(true, 0), (false, 10000), (false, 20000)]).breakAwaitingButton =
        true) ∧
    ((loopTick true 20005
        (run initState [(true, 0), (false, 10000), (false, 20000)])).1.currentState =
          State.WORK ∧
     (loopTick true 20005
        (run initState [(true, 0), (false, 10000), (false, 20000)])).1.totalRestTimeMs =
       (run initState [(true, 0), (false, 10000), (false, 20000)]).totalRestTimeMs +
         (20005 -
           (run initState [(true, 0), (false, 10000), (false, 20000)]).phaseStartTime) ∧
     (loopTick true 20005
        (run initState [(true, 0), (false, 10000), (false, 20000)])).1.pomodoroCount =
       (if (run initState [(true, 0), (false, 10000), (false, 20000)]).pomodoroCount ≥ 4
        then 1
        else (run initState [(true, 0), (false, 10000), (false, 20000)]).pomodoroCount
          + 1) ∧
     (loopTick true 20005
        (run initState [(true, 0), (false, 10000), (false, 20000)])).1.phaseStartTime =
       20005 ∧
     (loopTick true 20005
        (run initState [(true, 0), (false, 10000), (false, 20000)])).1.phaseDuration =
       WORK_TIME ∧
     (loopTick true 20005
        (run initState
          [(true, 0), (false, 10000), (false, 20000)])).1.breakAwaitingButton =
       false) :=
  ⟨by decide,
   c6_resume_press (run initState [(true, 0), (false, 10000), (false, 20000)]) 20005
     (by decide) (by decide)⟩

/-- C8: the session-time metric is written exactly at the break-expiry flush,
where it receives the raw current clock timestamp (not a duration since
session start), and nowhere else: any tick that changes it is a no-press
break-expiry tick and the new value is the tick timestamp itself. -/
theorem c8_session_time_discipline (s : Sys) (pr : Bool) (now : Nat) :
    ((pr = false ∧ s.currentState = State.BREAK ∧ s.breakAwaitingButton = false ∧
        s.phaseDuration ≤ now - s.phaseStartTime) →
      (loopTick pr now s).1.totalSessionTimeMs = now) ∧
    ((loopTick pr now s).1.totalSessionTimeMs ≠ s.totalSessionTimeMs →
      pr = false ∧ s.currentState = State.BREAK ∧ s.breakAwaitingButton = false ∧
        s.phaseDuration ≤ now - s.phaseStartTime ∧
        (loopTick pr now s).1.totalSessionTimeMs = now) := by
  constructor
  · rintro ⟨hpr, hstate, hflag, hexp⟩
    subst hpr
    rw [loopTick_breakState _ _ hstate, timeBreak_fst_totalSessionTimeMs]
    simp [hflag, hexp]
  · intro hne
    cases pr with
    | true =>
      rw [loopTick_press] at hne
      exact absurd (handlePress_totalSessionTimeMs now s) hne
    | false =>
      cases hs : s.currentState with
      | IDLE =>
        rw [loopTick_idle _ _ hs] at hne
        exact absurd rfl hne
      | WORK =>
        rw [loopTick_work _ _ hs] at hne
        by_cases hexp : s.phaseDuration ≤ now - s.phaseStartTime
        · exact absurd (timeWork_expired_spec now s hexp).2.2.2.2.2.2.2.2.2 hne
        · rw [timeWork_not_expired _ _ hexp] at hne
          exact absurd rfl hne
      | BREAK =>
        rw [loopTick_breakState _ _ hs] at hne ⊢
        rw [timeBreak_fst_totalSessionTimeMs] at hne ⊢
        by_cases hc : s.breakAwaitingButton = false ∧
            s.phaseDuration ≤ now - s.phaseStartTime
        · exact ⟨rfl, rfl, hc.1, hc.2, by simp [hc]⟩
        · rw [if_neg hc] at hne
          exact absurd rfl hne

/-- C8 witness: the break-expiry tick at time 20000 writes the raw timestamp
20000 into the session-time metric. -/
theorem c8_witness :
    (loopTick false 20000
      (run initState [(true, 0), (false, 10000)])).1.totalSessionTimeMs = 20000 :=
  (c8_session_time_discipline (run initState [(true, 0), (false, 10000)])
    false 20000).1 (by decide)

/-- C10: a tick flushes at most one snapshot; a flush happens only on a
no-press tick, and only at Work expiry or at the first Break expiry of a
Break; a press tick (the resume included) never flushes; every flushed
snapshot carries the current cumulative rest total; and starting from WORK
or IDLE (the region entered by a resume), ticks stay in that region until
the first flush, which is necessarily a Work-expiry flush. -/
theorem c10_flush_discipline (s : Sys) (pr : Bool) (now : Nat) :
    ((loopTick pr now s).2.flushes = [] ∨
      ∃ snap, (loopTick pr now s).2.flushes = [snap]) ∧
    ((loopTick pr now s).2.flushes ≠ [] →
      pr = false ∧
        ((s.currentState = State.WORK ∧
          s.phaseDuration ≤ now - s.phaseStartTime) ∨
         (s.currentState = State.BREAK ∧ s.breakAwaitingButton = false ∧
          s.phaseDuration ≤ now - s.phaseStartTime))) ∧
    (pr = true → (loopTick pr now s).2.flushes = []) ∧
    (∀ snap, (loopTick pr now s).2.flushes = [snap] →
      snap.field4 = s.totalRestTimeMs) ∧
    ((s.currentState = State.WORK ∨ s.currentState = State.IDLE) →
      ((loopTick pr now s).2.flushes = [] →
        ((loopTick pr now s).1.currentState = State.WORK ∨
         (loopTick pr now s).1.currentState = State.IDLE)) ∧
      ((loopTick pr now s).2.flushes ≠ [] →
        s.currentState = State.WORK ∧
          s.phaseDuration ≤ now - s.phaseStartTime)) := by
  cases pr with
  | true =>
    rw [loopTick_press]
    exact ⟨Or.inl rfl, fun h => absurd rfl h, fun _ => rfl,
      fun snap h => by simp [noEffects] at h,
      fun _ => ⟨fun _ => handlePress_state now s, fun h => absurd rfl h⟩⟩
  | false =>
    cases hs : s.currentState with
    | IDLE =>
      rw [loopTick_idle _ _ hs]
      exact ⟨Or.inl rfl, fun h => absurd rfl h, by simp,
        fun snap h => by simp [noEffects] at h,
        fun _ => ⟨fun _ => Or.inr hs, fun h => absurd rfl h⟩⟩
    | WORK =>
      rw [loopTick_work _ _ hs]
      by_cases hexp : s.phaseDuration ≤ now - s.phaseStartTime
      · obtain ⟨hc, -, -, -, hfl, -, -, -, -, -⟩ := timeWork_expired_spec now s hexp
        refine ⟨Or.inr ⟨_, hfl⟩, fun _ => ⟨rfl, Or.inl ⟨rfl, hexp⟩⟩, by simp,
          ?_, fun _ => ⟨fun h => ?_, fun _ => ⟨rfl, hexp⟩⟩⟩
        · intro snap h
          rw [hfl] at h
          have hsn : snap = (⟨s.totalPomodoroCount + 1, s.totalSessionTimeMs,
              s.totalFocusTimeMs + (now - s.phaseStartTime),
              s.totalRestTimeMs⟩ : Snapshot) :=
            (List.cons_eq_cons.mp h.symm).1
          rw [hsn]
        · rw [hfl] at h
          simp at h
      · rw [timeWork_not_expired _ _ hexp]
        exact ⟨Or.inl rfl, fun h => absurd rfl h, by simp,
          fun snap h => by simp [noEffects] at h,
          fun _ => ⟨fun _ => Or.inl hs, fun h => absurd rfl h⟩⟩
    | BREAK =>
      rw [loopTick_breakState _ _ hs]
      have hsnd := timeBreak_snd now s
      by_cases hcnd : s.breakAwaitingButton = false ∧
          s.phaseDuration ≤ now - s.phaseStartTime
      · rw [if_pos hcnd] at hsnd
        refine ⟨Or.inr ⟨snapshotOf { s with totalSessionTimeMs := now }, by rw [hsnd]⟩,
          fun _ => ⟨rfl, Or.inr ⟨rfl, hcnd.1, hcnd.2⟩⟩, by simp,
          ?_, fun hwi => by simp at hwi⟩
        · intro snap h
          rw [hsnd] at h
          have hsn : snap = snapshotOf { s with totalSessionTimeMs := now } :=
            (List.cons_eq_cons.mp h.symm).1
          rw [hsn]
          rfl
      · rw [if_neg hcnd] at hsnd
        refine ⟨Or.inl (by rw [hsnd]; rfl), fun h => absurd (by rw [hsnd]; rfl) h, by simp,
          fun snap h => ?_, fun hwi => by simp at hwi⟩
        · rw [hsnd] at h
          simp [noEffects] at h

/-- C10 witness: the Work-expiry tick at time 10000 flushes, and the flush
conditions name the Work-expiry point. -/
theorem c10_witness :
    (loopTick false 10000 (loopTick true 0 initState).1).2.flushes ≠ [] ∧
    (false = false ∧
      (((loopTick true 0 initState).1.currentState = State.WORK ∧
        (loopTick true 0 initState).1.phaseDuration ≤
          10000 - (loopTick true 0 initState).1.phaseStartTime) ∨
       ((loopTick true 0 initState).1.currentState = State.BREAK ∧
        (loopTick true 0 initState).1.breakAwaitingButton = false ∧
        (loopTick true 0 initState).1.phaseDuration ≤
          10000 - (loopTick true 0 initState).1.phaseStartTime))) :=
  ⟨by decide,
   (c10_flush_discipline (loopTick true 0 initState).1 false 10000).2.1 (by decide)⟩

end Pomodoro
